import Mathlib

/-!
Verification development for the MetaMold quoting application (src/app.py).
The quote-derivation pipeline is embedded shallowly: the hardcoded PDF
catalog cases, the geometry-based pricing of the STEP/STP branch, the
quantity-discount step, and the upload dispatch. Real numbers of the
Python source are modelled as rationals; the external importer is a
parameter that either returns a raw volume in cubic millimeters or fails.
-/

namespace AppMoldes

/-- Quote record shape assembled by the app: the PDF cases carry no volume,
the geometry branch carries the computed volume in cubic centimeters. -/
structure QuoteData where
  ref : String
  material : String
  volume : Option ℚ
  weight : ℚ
  price : ℚ
deriving DecidableEq

/-- Prefix test on character lists, written structurally so that the kernel
can evaluate it on concrete strings. -/
def prefixAt : List Char → List Char → Bool
  | [], _ => true
  | _ :: _, [] => false
  | a :: as, b :: bs => a == b && prefixAt as bs

/-- Substring containment on character lists: true when the pattern occurs
contiguously somewhere in the list. -/
def containsList (pat : List Char) : List Char → Bool
  | [] => pat.isEmpty
  | c :: cs => prefixAt pat (c :: cs) || containsList pat cs

/-- Python substring test `pat in text` as used by the PDF branch at
src/app.py lines 165, 172 and 179. It is case-sensitive. -/
def containsSub (text pat : String) : Bool := containsList pat.toList text.toList

/-- ASCII lowercasing of a string, character by character; used to model
Python `.lower()`. -/
def lowerStr (s : String) : String := String.mk (s.toList.map Char.toLower)

/-- Catalog key checked first by the PDF branch (src/app.py line 165). -/
def key1 : String := "Calcador Temperado Interior"

/-- Catalog key checked second by the PDF branch (src/app.py line 172). -/
def key2 : String := "Estrutura para embutir calcador interior"

/-- Catalog key checked third by the PDF branch (src/app.py line 179). -/
def key3 : String := "Estrutura para embutir calcador exterior"

/-- Hardcoded quote for the first PDF case (src/app.py lines 166-171). -/
def case1 : QuoteData :=
  { ref := "Case 1: Calcador Temperado Interior", material := "Aço 1.2379 (D2)",
    volume := none, weight := 1642/1000, price := 30952/100 }

/-- Hardcoded quote for the second PDF case (src/app.py lines 173-178). -/
def case2 : QuoteData :=
  { ref := "Case 2: Estrutura para embutir calcador interior", material := "Aço 1.1730 (C45)",
    volume := none, weight := 3796/1000, price := 30888/100 }

/-- Hardcoded quote for the third PDF case (src/app.py lines 180-185). -/
def case3 : QuoteData :=
  { ref := "Case 3: Estrutura para embutir calcador exterior", material := "Aço 1.1730 (C45)",
    volume := none, weight := 7782/1000, price := 36192/100 }

/-- PDF historical-match logic (src/app.py lines 164-190): three hardcoded
case-sensitive substring checks against the extracted text, in order, first
match wins; no match leaves the quote empty. -/
def pdfMatch (text : String) : Option QuoteData :=
  if containsSub text key1 then some case1
  else if containsSub text key2 then some case2
  else if containsSub text key3 then some case3
  else none

/-- Steel density constant of src/app.py line 207: 7.85e-6 kg per cubic
millimeter. -/
def density_kg_mm3 : ℚ := 785/100000000

/-- Mass computation of src/app.py line 208: raw volume in cubic millimeters
times the density constant. -/
def mass_kg (vol : ℚ) : ℚ := vol * density_kg_mm3

/-- Volume conversion of src/app.py line 212: the raw volume is divided by
1000 to obtain cubic centimeters; no absolute value is taken. -/
def vol_cm3 (vol : ℚ) : ℚ := vol / 1000

/-- Unit-price formula of src/app.py line 213:
mass * 4.5 + volume_cm3 * 0.05 + 150. -/
def price (vol : ℚ) : ℚ := mass_kg vol * (45/10) + vol_cm3 vol * (5/100) + 150

/-- Variant B pricing formula as the specification words it (section 4.3):
unit price equals weight_kg * 4.5 + volume_cm3 * 0.05 + 150. -/
def unit_price_variantB (weight volcm3 : ℚ) : ℚ :=
  weight * (45/10) + volcm3 * (5/100) + 150

/-- Quantity-discount step of src/app.py lines 260-262: the final price is
unit price times quantity, multiplied by 0.90 exactly when the quantity
exceeds 10. -/
def final_price (price_val : ℚ) (qty : ℤ) : ℚ :=
  if qty > 10 then price_val * (qty : ℚ) * (9/10) else price_val * (qty : ℚ)

/-- Error taxonomy of the specification's pricing contract (section 4.3). -/
inductive PricingError where
  | InvalidQuantity
deriving DecidableEq

/-- Pricing step as the code performs it (src/app.py lines 258-262): the
final price is computed directly from the widget's quantity with no
validation and no failure path; the Except wrapper records the absence of
any error outcome. -/
def pricingStep (price_val : ℚ) (qty : ℤ) : Except PricingError ℚ :=
  Except.ok (final_price price_val qty)

/-- Total-price contract as the specification words it (section 4.3):
reject non-positive quantities with InvalidQuantity, otherwise apply the
discount rule. -/
def totalSpec (u : ℚ) (qty : ℤ) : Except PricingError ℚ :=
  if qty ≤ 0 then Except.error PricingError.InvalidQuantity
  else Except.ok (final_price u qty)

/-- Outcome of processing one upload: a quote, the no-match warning, an
error message, or nothing at all when no branch handles the file. -/
inductive UploadOutcome where
  | quote (q : QuoteData)
  | noMatch
  | errorState (msg : String)
  | ignored
deriving DecidableEq

/-- Quote record assembled by the geometry branch (src/app.py lines
215-221). -/
def geomQuote (name : String) (vol : ℚ) : QuoteData :=
  { ref := name, material := "Generic Steel (7.85g/cc)",
    volume := some (vol_cm3 vol), weight := mass_kg vol, price := price vol }

/-- STEP/STP branch (src/app.py lines 193-244). The Bool component records
whether the temporary file written for the importer still exists when the
branch finishes: the code reaches os.unlink only after import, quote
assembly and visualization succeed, so the exception handler leaves the
file on disk; when CadQuery is unavailable no temporary file is created. -/
def stepBranch (cqOk : Bool) (name : String) (importResult : Except String ℚ) :
    Bool × UploadOutcome :=
  if cqOk then
    match importResult with
    | Except.ok vol => (false, UploadOutcome.quote (geomQuote name vol))
    | Except.error e =>
        (true, UploadOutcome.errorState ("Error processing STEP file: " ++ e))
  else
    (false, UploadOutcome.errorState "CadQuery library not installed. Cannot process 3D model.")

/-- Extension extraction of src/app.py line 154: the segment after the last
dot of the filename, lowercased (Python name.split by dot, last element,
lower). -/
def extAfterDot : List Char → List Char → List Char
  | [], acc => acc
  | c :: rest, acc => if c = '.' then extAfterDot rest [] else extAfterDot rest (acc ++ [c])

/-- Lowercased file extension of an uploaded filename (src/app.py line 154). -/
def file_ext (name : String) : String :=
  String.mk ((extAfterDot name.toList []).map Char.toLower)

/-- Accepted types declared on the upload widget (src/app.py line 149). -/
def uploader_types : List String := ["pdf", "step", "stp", "stl"]

/-- Upload dispatch of src/app.py lines 153-244: the pdf extension goes to
the historical matcher, step and stp go to the geometry branch, and any
other extension falls through with no processing at all. The Bool component
is the temporary-file flag of stepBranch. -/
def processUpload (cqOk : Bool) (name text : String) (importResult : Except String ℚ) :
    Bool × UploadOutcome :=
  let ext := file_ext name
  if ext = "pdf" then
    (false, match pdfMatch text with
      | some q => UploadOutcome.quote q
      | none => UploadOutcome.noMatch)
  else if ext = "step" ∨ ext = "stp" then
    stepBranch cqOk name importResult
  else
    (false, UploadOutcome.ignored)

/-- C1, counterexample: with unit price 1 the total at quantity 10 is 10 but
the total at quantity 11 is 9.9, so the final price is not non-decreasing
in quantity across the discount threshold. -/
theorem C1_counterexample :
    (0:ℚ) ≤ 1 ∧ (1:ℤ) ≤ 10 ∧ (10:ℤ) < 11 ∧ final_price 1 11 < final_price 1 10 := by
  refine ⟨by norm_num, by decide, by decide, ?_⟩
  have h10 : ¬ ((10:ℤ) > 10) := by decide
  have h11 : (11:ℤ) > 10 := by decide
  simp only [final_price, if_pos h11, if_neg h10]
  norm_num

/-- C1, amended: for a non-negative unit price and quantities at least 1 the
final price is non-negative, never falls below a single unit's price, and
is non-decreasing in quantity within each discount regime (both quantities
at most 10, or both above 10); across the threshold it can decrease. -/
theorem C1_amended (p : ℚ) (q1 q2 : ℤ) (hp : 0 ≤ p) (h1 : 1 ≤ q1) (h12 : q1 ≤ q2)
    (hreg : q2 ≤ 10 ∨ 10 < q1) :
    0 ≤ final_price p q1 ∧ p ≤ final_price p q1 ∧ final_price p q1 ≤ final_price p q2 := by
  have hq1 : (1:ℚ) ≤ (q1 : ℚ) := by exact_mod_cast h1
  have hq12 : (q1 : ℚ) ≤ (q2 : ℚ) := by exact_mod_cast h12
  rcases hreg with h | h
  · have hn1 : ¬ (q1 > 10) := by omega
    have hn2 : ¬ (q2 > 10) := by omega
    simp only [final_price, if_neg hn1, if_neg hn2]
    refine ⟨mul_nonneg hp (by linarith), ?_, mul_le_mul_of_nonneg_left hq12 hp⟩
    nlinarith
  · have h2 : q2 > 10 := by omega
    have hq1' : (11:ℚ) ≤ (q1 : ℚ) := by exact_mod_cast (by omega : (11:ℤ) ≤ q1)
    simp only [final_price, if_pos h, if_pos h2]
    refine ⟨by positivity, ?_, ?_⟩
    · nlinarith
    · have := mul_le_mul_of_nonneg_left hq12 hp
      nlinarith

/-- C1, witness for the amended statement at unit price 2 and quantities 3
and 7, both below the threshold. -/
theorem C1_witness :
    (0:ℚ) ≤ 2 ∧ (1:ℤ) ≤ 3 ∧ (3:ℤ) ≤ 7 ∧ ((7:ℤ) ≤ 10 ∨ (10:ℤ) < 3) ∧
      (0 ≤ final_price 2 3 ∧ (2:ℚ) ≤ final_price 2 3 ∧ final_price 2 3 ≤ final_price 2 7) :=
  ⟨by norm_num, by decide, by decide, Or.inl (by decide),
    C1_amended 2 3 7 (by norm_num) (by decide) (by decide) (Or.inl (by decide))⟩

/-- C5: the total at quantity 10 is exactly unit price times 10 (no discount
at the boundary), the total at quantity 11 is unit price times 11 times
0.90, and in general the 10 percent discount applies exactly when the
quantity exceeds 10. -/
theorem C5_discount (u : ℚ) :
    final_price u 10 = u * 10 ∧ final_price u 11 = u * 11 * (9/10) ∧
      ∀ q : ℤ, (10 < q → final_price u q = u * (q : ℚ) * (9/10)) ∧
        (q ≤ 10 → final_price u q = u * (q : ℚ)) := by
  refine ⟨?_, ?_, fun q => ⟨fun h => ?_, fun h => ?_⟩⟩
  · have h10 : ¬ ((10:ℤ) > 10) := by decide
    simp only [final_price, if_neg h10]
    norm_num
  · have h11 : (11:ℤ) > 10 := by decide
    simp only [final_price, if_pos h11]
    norm_num
  · simp only [final_price, if_pos h]
  · have hn : ¬ (q > 10) := by omega
    simp only [final_price, if_neg hn]

/-- C5, witness: quantity 15 at unit price 100 gets the discount, yielding
100 * 15 * 0.9 = 1350. -/
theorem C5_witness : final_price 100 15 = 100 * 15 * (9/10) ∧ final_price 100 15 = 1350 := by
  have h := ((C5_discount 100).2.2 15).1 (by decide)
  exact ⟨h, by rw [h]; norm_num⟩

/-- C6, counterexample: handed quantity 0 directly, the pricing step of the
code computes the final price 0 and returns it; it does not fail with
InvalidQuantity, so no rejection of non-positive quantities exists in the
code. -/
theorem C6_counterexample : pricingStep 100 0 = Except.ok 0 := by
  have h : ¬ ((0:ℤ) > 10) := by decide
  simp only [pricingStep, final_price, if_neg h]
  norm_num

/-- C6, amended: the code's pricing step computes the discounted total for
every integer quantity it receives and never produces an error; invalid
quantities are prevented only by the quantity widget's minimum of 1, and
on positive quantities the code agrees with the specification's total
contract. -/
theorem C6_amended (p : ℚ) (q : ℤ) :
    pricingStep p q = Except.ok (final_price p q) ∧
      (1 ≤ q → totalSpec p q = pricingStep p q) := by
  refine ⟨rfl, fun h => ?_⟩
  have hn : ¬ (q ≤ 0) := by omega
  simp only [totalSpec, pricingStep, if_neg hn]

/-- C6, witness for the amended statement at unit price 5 and quantity 3. -/
theorem C6_witness :
    pricingStep 5 3 = Except.ok (final_price 5 3) ∧ totalSpec 5 3 = pricingStep 5 3 :=
  ⟨(C6_amended 5 3).1, (C6_amended 5 3).2 (by decide)⟩

/-- C2, counterexample: for a raw importer volume of -50000 cubic
millimeters, the geometry branch reports volume_cm3 = -50, a negative
value: the code takes no absolute value. -/
theorem C2_counterexample :
    (geomQuote "part.step" (-50000)).volume = some (-50) ∧ vol_cm3 (-50000) < 0 := by
  constructor
  · simp only [geomQuote, vol_cm3]
    norm_num
  · simp only [vol_cm3]
    norm_num

/-- C2, amended: the reported volume is the raw volume divided by 1000 with
its sign preserved, so it is non-negative exactly when the raw importer
volume is non-negative. -/
theorem C2_amended (vol : ℚ) :
    vol_cm3 vol = vol / 1000 ∧ (0 ≤ vol_cm3 vol ↔ 0 ≤ vol) := by
  refine ⟨rfl, ?_⟩
  simp only [vol_cm3]
  rw [le_div_iff₀ (by norm_num : (0:ℚ) < 1000), zero_mul]

/-- C2, witness for the amended statement at raw volume -50000. -/
theorem C2_witness :
    vol_cm3 (-50000) = -50000 / 1000 ∧ (0 ≤ vol_cm3 (-50000) ↔ 0 ≤ (-50000 : ℚ)) :=
  C2_amended (-50000)

/-- C4, counterexample: at raw volume -50000 cubic millimeters the code
yields volume_cm3 = -50 (not 50), weight -0.3925 kilograms, and unit price
145.73375, well below the 154.27 the claim states. -/
theorem C4_counterexample :
    vol_cm3 (-50000) = -50 ∧ mass_kg (-50000) = -(3925/10000) ∧
      price (-50000) = 116587/800 ∧ price (-50000) < 15427/100 := by
  refine ⟨?_, ?_, ?_, ?_⟩ <;>
    simp only [price, mass_kg, vol_cm3, density_kg_mm3] <;> norm_num

/-- C4, amended: the geometry branch computes the unit price exactly by the
Variant B formula weight * 4.5 + volume_cm3 * 0.05 + 150; but since no sign
normalization happens, raw volume -50000 yields volume_cm3 = -50, weight
-0.3925 and unit price 145.73375 rather than the claimed positive values. -/
theorem C4_amended :
    (∀ v : ℚ, price v = unit_price_variantB (mass_kg v) (vol_cm3 v)) ∧
      vol_cm3 (-50000) = -50 ∧ mass_kg (-50000) = -(3925/10000) ∧
        price (-50000) = 116587/800 := by
  refine ⟨fun v => rfl, ?_, ?_, ?_⟩ <;>
    simp only [price, mass_kg, vol_cm3, density_kg_mm3] <;> norm_num

/-- C4, witness instantiating the formula part of the amended statement at
raw volume 50000. -/
theorem C4_witness : price 50000 = unit_price_variantB (mass_kg 50000) (vol_cm3 50000) :=
  C4_amended.1 50000

/-- C7, counterexample: at raw volume 50000 cubic millimeters the code's
weight is 0.3925 kilograms, while the claimed formula
volume_cm3 * density / 1000 with density 7.85e-6 kg per cubic millimeter
gives 3.925e-7, a value one million times smaller. -/
theorem C7_counterexample :
    mass_kg 50000 = 3925/10000 ∧
      vol_cm3 50000 * density_kg_mm3 / 1000 = 3925/10000000000 ∧
        vol_cm3 50000 * density_kg_mm3 / 1000 < mass_kg 50000 := by
  refine ⟨?_, ?_, ?_⟩ <;>
    simp only [mass_kg, vol_cm3, density_kg_mm3] <;> norm_num

/-- C7, amended: for geometry-computed quotes the weight equals the raw
volume times the density constant, equivalently
weight_kg = volume_cm3 * density_kg_mm3 * 1000 with density 7.85e-6 kg per
cubic millimeter. -/
theorem C7_amended (v : ℚ) : mass_kg v = vol_cm3 v * density_kg_mm3 * 1000 := by
  simp only [mass_kg, vol_cm3, density_kg_mm3]
  ring

/-- C7, witness for the amended statement at raw volume 50000. -/
theorem C7_witness : mass_kg 50000 = vol_cm3 50000 * density_kg_mm3 * 1000 :=
  C7_amended 50000

/-- C3, counterexample: the lowercased text below contains catalog key 1 in
lowercase (case-insensitive containment holds), yet the matcher returns no
match: the code's substring checks are case-sensitive. -/
theorem C3_counterexample :
    containsSub (lowerStr "ref calcador temperado interior 99") (lowerStr key1) = true ∧
      pdfMatch "ref calcador temperado interior 99" = none := by
  constructor
  · decide
  · decide

/-- C3, amended: matching is case-sensitive substring containment of the
three hardcoded keys against the full text, checked in fixed order with the
first contained key winning; a text containing none of the keys yields no
match. -/
theorem C3_amended (text : String) :
    (containsSub text key1 = true → pdfMatch text = some case1) ∧
      (containsSub text key1 = false → containsSub text key2 = true →
        pdfMatch text = some case2) ∧
      (containsSub text key1 = false → containsSub text key2 = false →
        containsSub text key3 = true → pdfMatch text = some case3) ∧
      (containsSub text key1 = false → containsSub text key2 = false →
        containsSub text key3 = false → pdfMatch text = none) := by
  refine ⟨fun h1 => ?_, fun h1 h2 => ?_, fun h1 h2 h3 => ?_, fun h1 h2 h3 => ?_⟩ <;>
    simp [pdfMatch, h1]
  · simp [h2]
  · simp [h2, h3]
  · simp [h2, h3]

/-- C3, witness: a text containing key 1 with exact case matches case 1, and
a text containing no key yields no match. -/
theorem C3_witness :
    pdfMatch "xx Calcador Temperado Interior yy" = some case1 ∧
      pdfMatch "nothing relevant here" = none :=
  ⟨(C3_amended "xx Calcador Temperado Interior yy").1 (by decide),
    (C3_amended "nothing relevant here").2.2.2 (by decide) (by decide) (by decide)⟩

/-- C8: the upload widget declares stl among its accepted types, yet an
uploaded .stl file matches neither the pdf branch nor the step/stp branch
of the dispatch and is silently ignored — no quote, no warning — whether or
not CadQuery is available and whatever the importer would return. -/
theorem C8_stl_ignored :
    "stl" ∈ uploader_types ∧
      processUpload true "model.stl" "any text" (Except.ok 1000) =
        (false, UploadOutcome.ignored) ∧
      processUpload false "model.stl" "any text" (Except.error "boom") =
        (false, UploadOutcome.ignored) := by
  refine ⟨by decide, ?_, ?_⟩ <;>
    · have h : file_ext "model.stl" = "stl" := by decide
      simp [processUpload, h]

/-- C9: when CadQuery is available and the import of a .step upload fails,
the branch surfaces the error message but the temporary file written for
the importer is left on disk (flag true), while on the success path it is
deleted (flag false): deletion is not guaranteed on the failure exit
path. -/
theorem C9_tmpfile_leak :
    stepBranch true "part.step" (Except.error "boom") =
      (true, UploadOutcome.errorState "Error processing STEP file: boom") ∧
      (stepBranch true "part.step" (Except.ok 50000)).1 = false := by
  exact ⟨rfl, rfl⟩

/-- C10: when the CadQuery kernel is unavailable, every upload whose
extension is step or stp yields exactly the error state "CadQuery library
not installed. Cannot process 3D model." with no quote and no temporary
file, while the pdf path is unaffected by the kernel's availability. -/
theorem C10_cq_missing :
    (∀ (name text : String) (imp : Except String ℚ),
        (file_ext name = "step" ∨ file_ext name = "stp") →
          processUpload false name text imp =
            (false, UploadOutcome.errorState
              "CadQuery library not installed. Cannot process 3D model.")) ∧
      (∀ (name text : String) (imp : Except String ℚ) (cqOk : Bool),
          file_ext name = "pdf" →
            processUpload cqOk name text imp = processUpload false name text imp) := by
  constructor
  · intro name text imp h
    rcases h with h | h <;> simp [processUpload, h, stepBranch]
  · intro name text imp cqOk h
    simp [processUpload, h]

/-- C10, witness: a .step upload without the kernel produces exactly the
error state, and a .pdf upload is processed identically with and without
the kernel. -/
theorem C10_witness :
    processUpload false "mold.step" "" (Except.ok 1000) =
      (false, UploadOutcome.errorState
        "CadQuery library not installed. Cannot process 3D model.") ∧
      processUpload true "doc.pdf" "x" (Except.error "e") =
        processUpload false "doc.pdf" "x" (Except.error "e") :=
  ⟨C10_cq_missing.1 "mold.step" "" (Except.ok 1000) (Or.inl (by decide)),
    C10_cq_missing.2 "doc.pdf" "x" (Except.error "e") true (by decide)⟩

end AppMoldes
